import Mathlib

/-!
# DualHeadTranslator — verification of the translation-resolver core

Shallow embedding of the dictionary-fallback translation resolver that the
repository implements in several near-duplicate Streamlit app variants
(`streamlit_app_robust.py`, `streamlit_app_final.py`,
`streamlit_app_working.py`, `streamlit_app_simple.py`), together with the
conversation-history bookkeeping.

Python strings are modelled as Lean `String`, Python dicts (whose iteration
order is insertion order) as association lists `List (String × String)`,
Python `None`-or-string values as `Option String`, and a backend call that
may raise as `Except String (Option String)`.
-/

namespace DualHead

/-- Python lowercasing `text.lower()` restricted to the ASCII texts the app handles. -/
def pyLower (s : String) : String := ⟨s.data.map Char.toLower⟩

/-- Python whitespace strip `text.strip()` with no argument: drop leading and trailing
whitespace. -/
def pyStrip (s : String) : String :=
  ⟨((s.data.dropWhile Char.isWhitespace).reverse.dropWhile Char.isWhitespace).reverse⟩

/-- Contiguous-sublist test on character lists. -/
def listInfixOf (pat : List Char) : List Char → Bool
  | [] => pat.isEmpty
  | c :: rest => pat.isPrefixOf (c :: rest) || listInfixOf pat rest

/-- Python substring test `pat in s`. -/
def strContains (s pat : String) : Bool := listInfixOf pat.data s.data

/-- Fuel-driven worker for Python `str.replace`: replace every
non-overlapping occurrence of `pat`, scanning left to right.  The fuel is
only an artifact making the recursion structural; `pyReplace` supplies
enough fuel for it never to run out. -/
def pyReplaceAux (pat rep : List Char) : Nat → List Char → List Char
  | _, [] => if pat.isEmpty then rep else []
  | 0, l => l
  | fuel + 1, c :: rest =>
    match pat with
    | [] => rep ++ c :: pyReplaceAux [] rep fuel rest
    | p :: ps =>
      if (p :: ps).isPrefixOf (c :: rest) then
        rep ++ pyReplaceAux (p :: ps) rep fuel (rest.drop ps.length)
      else
        c :: pyReplaceAux (p :: ps) rep fuel rest

/-- Python string replacement `s.replace(pat, rep)` (all occurrences). -/
def pyReplace (s pat rep : String) : String :=
  ⟨pyReplaceAux pat.data rep.data s.data.length s.data⟩

/-- Worker for Python `str.split()` with no argument: split on runs of
whitespace, discarding empty pieces; `cur` holds the current word reversed. -/
def pySplitWSAux : List Char → List Char → List String
  | [], cur => if cur = [] then [] else [⟨cur.reverse⟩]
  | c :: rest, cur =>
    if c.isWhitespace then
      if cur = [] then pySplitWSAux rest []
      else ⟨cur.reverse⟩ :: pySplitWSAux rest []
    else pySplitWSAux rest (c :: cur)

/-- Python whitespace split `text.split()` (no empty tokens). -/
def pySplitWS (s : String) : List String := pySplitWSAux s.data []

/-- Python join with single spaces. -/
def joinSpace : List String → String
  | [] => ""
  | [w] => w
  | w :: rest => w ++ " " ++ joinSpace rest

/-- Python per-character strip `word.strip(chars)`: drop leading and trailing characters that
belong to `cs`. -/
def pyStripChars (cs : List Char) (s : String) : String :=
  ⟨((s.data.dropWhile (fun c => cs.contains c)).reverse.dropWhile
      (fun c => cs.contains c)).reverse⟩

/-- The punctuation set that the word-by-word fallback strips from each
token before lookup. -/
def punctChars : List Char := ['.', ',', '!', '?', ';', ':', '"', '(', ')', '[', ']']

/-- Python dict lookup on an insertion-ordered
association list. -/
def dictLookup (d : List (String × String)) (k : String) : Option String :=
  match d with
  | [] => none
  | (a, b) :: rest => if a = k then some b else dictLookup rest k

/-- Python two-level dict get with empty-dict default: fetch the per-language-
pair dictionary of `backup_translations`, defaulting to the empty dict. -/
def dictGetL (m : List (String × List (String × String))) (k : String) :
    List (String × String) :=
  match m with
  | [] => []
  | (a, v) :: rest => if a = k then v else dictGetL rest k

/-- Python dict insertion (overwrite keeps the original slot,
otherwise append). -/
def dictSet (d : List (String × String)) (k v : String) :
    List (String × String) :=
  if d.any (fun p => p.1 == k) then
    d.map (fun p => if p.1 == k then (k, v) else p)
  else d ++ [(k, v)]

/-- Python dict-inversion comprehension (later duplicates overwrite). -/
def invertDict (d : List (String × String)) : List (String × String) :=
  d.foldl (fun acc p => dictSet acc p.2 p.1) []

/-- Python truthiness of an optional string: the Python None and the
empty string are falsy. -/
def pyFalsyOpt : Option String → Bool
  | none => true
  | some s => s == ""

/-- The `MockTranslation` object shared by the final and working variants. -/
structure MockTranslation where
  text : String
  src : String
  dest : String
deriving DecidableEq

/-- The translation-record dict the final and simple variants store in
`st.session_state.conversation_history` (`datetime` modelled as `Nat`). -/
structure HistRec where
  original_text : String
  translated_text : String
  source_lang : String
  target_lang : String
  timestamp : Nat
deriving DecidableEq

namespace Final

/-- The `en-de` backup dictionary literal of `FallbackTranslator.__init__`
in `streamlit_app_final.py`, in insertion order. -/
def en_de : List (String × String) := [
  ("hello", "hallo"),
  ("hi", "hallo"),
  ("good morning", "guten morgen"),
  ("good afternoon", "guten tag"),
  ("good evening", "guten abend"),
  ("good night", "gute nacht"),
  ("goodbye", "auf wiedersehen"),
  ("bye", "tschüss"),
  ("see you later", "bis später"),
  ("please", "bitte"),
  ("thank you", "danke"),
  ("thanks", "danke"),
  ("thank you very much", "vielen dank"),
  ("you are welcome", "bitte schön"),
  ("excuse me", "entschuldigung"),
  ("sorry", "entschuldigung"),
  ("pardon", "verzeihung"),
  ("how are you", "wie geht es dir"),
  ("what is your name", "wie heißt du"),
  ("where are you from", "woher kommst du"),
  ("how old are you", "wie alt bist du"),
  ("what time is it", "wie spät ist es"),
  ("where is", "wo ist"),
  ("how much", "wie viel"),
  ("how many", "wie viele"),
  ("what", "was"),
  ("when", "wann"),
  ("where", "wo"),
  ("why", "warum"),
  ("how", "wie"),
  ("who", "wer"),
  ("yes", "ja"),
  ("no", "nein"),
  ("maybe", "vielleicht"),
  ("i do not know", "ich weiß nicht"),
  ("i understand", "ich verstehe"),
  ("i do not understand", "ich verstehe nicht"),
  ("i speak english", "ich spreche englisch"),
  ("do you speak english", "sprechen sie englisch"),
  ("i love you", "ich liebe dich"),
  ("i like it", "es gefällt mir"),
  ("help", "hilfe"),
  ("help me", "hilf mir"),
  ("call the police", "rufen sie die polizei"),
  ("call a doctor", "rufen sie einen arzt"),
  ("emergency", "notfall"),
  ("hospital", "krankenhaus"),
  ("police", "polizei"),
  ("fire department", "feuerwehr"),
  ("where is the bathroom", "wo ist die toilette"),
  ("where is the train station", "wo ist der bahnhof"),
  ("where is the airport", "wo ist der flughafen"),
  ("where is the hotel", "wo ist das hotel"),
  ("where is the restaurant", "wo ist das restaurant"),
  ("left", "links"),
  ("right", "rechts"),
  ("straight", "geradeaus"),
  ("near", "nah"),
  ("far", "weit"),
  ("water", "wasser"),
  ("food", "essen"),
  ("bread", "brot"),
  ("meat", "fleisch"),
  ("fish", "fisch"),
  ("vegetables", "gemüse"),
  ("fruit", "obst"),
  ("coffee", "kaffee"),
  ("tea", "tee"),
  ("beer", "bier"),
  ("wine", "wein"),
  ("milk", "milch"),
  ("sugar", "zucker"),
  ("salt", "salz"),
  ("one", "eins"),
  ("two", "zwei"),
  ("three", "drei"),
  ("four", "vier"),
  ("five", "fünf"),
  ("six", "sechs"),
  ("seven", "sieben"),
  ("eight", "acht"),
  ("nine", "neun"),
  ("ten", "zehn"),
  ("eleven", "elf"),
  ("twelve", "zwölf"),
  ("twenty", "zwanzig"),
  ("thirty", "dreißig"),
  ("forty", "vierzig"),
  ("fifty", "fünfzig"),
  ("hundred", "hundert"),
  ("thousand", "tausend"),
  ("go", "gehen"),
  ("come", "kommen"),
  ("see", "sehen"),
  ("hear", "hören"),
  ("speak", "sprechen"),
  ("eat", "essen"),
  ("drink", "trinken"),
  ("sleep", "schlafen"),
  ("work", "arbeiten"),
  ("study", "studieren"),
  ("play", "spielen"),
  ("run", "laufen"),
  ("walk", "gehen"),
  ("buy", "kaufen"),
  ("sell", "verkaufen"),
  ("give", "geben"),
  ("take", "nehmen"),
  ("today", "heute"),
  ("tomorrow", "morgen"),
  ("yesterday", "gestern"),
  ("now", "jetzt"),
  ("later", "später"),
  ("early", "früh"),
  ("late", "spät"),
  ("morning", "morgen"),
  ("afternoon", "nachmittag"),
  ("evening", "abend"),
  ("night", "nacht"),
  ("monday", "montag"),
  ("tuesday", "dienstag"),
  ("wednesday", "mittwoch"),
  ("thursday", "donnerstag"),
  ("friday", "freitag"),
  ("saturday", "samstag"),
  ("sunday", "sonntag")
]

/-- Python dict comprehension in the final variant inverting `en_de` into
its `de-en` table (later duplicates overwrite). -/
def de_en : List (String × String) := DualHead.invertDict en_de

/-- The `backup_translations` table of the final variant. -/
def backup_translations : List (String × List (String × String)) :=
  [("en-de", en_de), ("de-en", de_en)]

/-- The partial-match scan of `translate_with_dictionary`: iterate the
dictionary items in insertion order carrying `(best_match, text_lower)`;
whenever a phrase occurs in the current `text_lower` and is longer than
`best_match`, record it and replace all its occurrences in `text_lower`. -/
def partialScan : List (String × String) → String → String → String × String
  | [], best, tl => (best, tl)
  | (phrase, translation) :: rest, best, tl =>
    if strContains tl phrase && decide (best.length < phrase.length) then
      partialScan rest phrase (pyReplace tl phrase translation)
    else
      partialScan rest best tl

/-- Embedding of `FallbackTranslator.translate_with_dictionary` of
`streamlit_app_final.py`: exact phrase match, then cumulative partial-match
replacement, then word-by-word lookup with punctuation stripping, then the
`"[Need translation: ...]"` marker. -/
def translate_with_dictionary (backup : List (String × List (String × String)))
    (text src dest : String) : String :=
  let translations := dictGetL backup (src ++ "-" ++ dest)
  let text_lower := pyStrip (pyLower text)
  match dictLookup translations text_lower with
  | some v => v
  | none =>
    let scan := partialScan translations "" text_lower
    if scan.1 ≠ "" then scan.2
    else
      let words := pySplitWS text_lower
      let translated_words := words.map fun word =>
        match dictLookup translations (pyStripChars punctChars word) with
        | some t => t
        | none => word
      let result := joinSpace translated_words
      if result = text_lower then "[Need translation: " ++ text ++ "]" else result

/-- The acceptance test the chain of `FallbackTranslator.translate` applies
to each backend attempt: an exception or a falsy result is rejected, and so
is a result identical to the input (`if result and result != text`). -/
def accept (text : String) : Except String (Option String) → Option String
  | .error _ => none
  | .ok none => none
  | .ok (some r) => if r = "" ∨ r = text then none else some r

/-- Result of the resolver chain, instrumented with two ghost observables
of the control flow: whether the dictionary fallback ran (the spec-level
`isFallback` flag) and how many backends were invoked. -/
structure TranslateTrace where
  result : MockTranslation
  usedFallback : Bool
  backendsTried : Nat
deriving DecidableEq

/-- Embedding of `FallbackTranslator.translate` of
`streamlit_app_final.py`.  Here `deepAvail` is `DEEP_TRANSLATOR_AVAILABLE`;
`b1`, `b2`, `b3` are the outcomes the deep-translator, MyMemory and
LibreTranslate calls would produce if invoked (a raised exception or an
optional string). -/
def translate (deepAvail : Bool) (b1 b2 b3 : Except String (Option String))
    (backup : List (String × List (String × String)))
    (text src dest : String) : TranslateTrace :=
  if text = "" ∨ pyStrip text = "" then ⟨⟨"", src, dest⟩, false, 0⟩
  else
    let n1 := if deepAvail then 1 else 0
    match (if deepAvail then accept text b1 else none) with
    | some r => ⟨⟨r, src, dest⟩, false, n1⟩
    | none =>
      match accept text b2 with
      | some r => ⟨⟨r, src, dest⟩, false, n1 + 1⟩
      | none =>
        match accept text b3 with
        | some r => ⟨⟨r, src, dest⟩, false, n1 + 2⟩
        | none =>
          ⟨⟨translate_with_dictionary backup text src dest, src, dest⟩, true, n1 + 2⟩

/-- Embedding of `save_to_history` of `streamlit_app_final.py`: skip duplicates, append,
keep the last 50 entries. -/
def save_to_history (history : List HistRec) (translation : HistRec) :
    List HistRec :=
  if translation ∈ history then history
  else
    let h := history ++ [translation]
    if 50 < h.length then h.drop (h.length - 50) else h

end Final

namespace Robust

/-- The `en-de` backup dictionary of `setup_backup_translations` in
`streamlit_app_robust.py`, in insertion order. -/
def en_de : List (String × String) := [
  ("hello", "hallo"),
  ("goodbye", "auf wiedersehen"),
  ("thank you", "danke"),
  ("please", "bitte"),
  ("yes", "ja"),
  ("no", "nein"),
  ("how are you", "wie geht es dir"),
  ("good morning", "guten morgen"),
  ("good evening", "guten abend"),
  ("excuse me", "entschuldigung"),
  ("i love you", "ich liebe dich"),
  ("where is", "wo ist"),
  ("how much", "wie viel"),
  ("what time", "wie spät"),
  ("help me", "hilf mir"),
  ("i need", "ich brauche"),
  ("water", "wasser"),
  ("food", "essen"),
  ("bathroom", "badezimmer"),
  ("hotel", "hotel"),
  ("restaurant", "restaurant"),
  ("train station", "bahnhof"),
  ("airport", "flughafen"),
  ("hospital", "krankenhaus"),
  ("emergency", "notfall"),
  ("police", "polizei")
]

/-- The `de-en` backup dictionary of `setup_backup_translations` in
`streamlit_app_robust.py` (authored explicitly, not derived). -/
def de_en : List (String × String) := [
  ("hallo", "hello"),
  ("auf wiedersehen", "goodbye"),
  ("danke", "thank you"),
  ("bitte", "please"),
  ("ja", "yes"),
  ("nein", "no"),
  ("wie geht es dir", "how are you"),
  ("guten morgen", "good morning"),
  ("guten abend", "good evening"),
  ("entschuldigung", "excuse me"),
  ("ich liebe dich", "i love you"),
  ("wo ist", "where is"),
  ("wie viel", "how much"),
  ("wie spät", "what time"),
  ("hilf mir", "help me"),
  ("ich brauche", "i need"),
  ("wasser", "water"),
  ("essen", "food"),
  ("badezimmer", "bathroom"),
  ("hotel", "hotel"),
  ("restaurant", "restaurant"),
  ("bahnhof", "train station"),
  ("flughafen", "airport"),
  ("krankenhaus", "hospital"),
  ("notfall", "emergency"),
  ("polizei", "police")
]

/-- The `backup_translations` table of the robust variant. -/
def backup_translations : List (String × List (String × String)) :=
  [("en-de", en_de), ("de-en", de_en)]

/-- The partial-match loop of `backup_translate`: return on the FIRST
dictionary phrase (in insertion order) occurring in `text_lower`, replacing
all its occurrences inside `text.lower()` (note: the unstripped lowering);
if none occurs, return the `"[Translation needed: ...]"` marker. -/
def backupPartial : List (String × String) → String → String → String
  | [], text, _ => "[Translation needed: " ++ text ++ "]"
  | (original, translated) :: rest, text, tl =>
    if strContains tl original then pyReplace (pyLower text) original translated
    else backupPartial rest text tl

/-- Embedding of `backup_translate` of `streamlit_app_robust.py` with the session
languages passed explicitly: exact phrase match, else first partial match,
else the sentinel marker. -/
def backup_translate (backup : List (String × List (String × String)))
    (src dest text : String) : String :=
  let translations := dictGetL backup (src ++ "-" ++ dest)
  let text_lower := pyStrip (pyLower text)
  match dictLookup translations text_lower with
  | some v => v
  | none => backupPartial translations text text_lower

/-- The translation-record dict the robust variant builds in
`translate_text` (`datetime` modelled as `Nat`). -/
structure Result where
  original_text : String
  translated_text : String
  source_lang : String
  target_lang : String
  timestamp : Nat
  is_backup : Bool
deriving DecidableEq

/-- Embedding of `translate_text` of `streamlit_app_robust.py`.
Here `servicesTranslation` is the translation entry of `self.services`, and `libResult` is the
value the selected library backend would assign to `translated_text`.  When
the backend result is falsy the dictionary backup runs and the record is
flagged `is_backup`; a falsy final text produces no record (the code only
shows an error). -/
def translate_text (backup : List (String × List (String × String)))
    (servicesTranslation : Bool) (libResult : Option String) (now : Nat)
    (src dest text : String) : Option Result :=
  let t0 : Option String := if servicesTranslation then libResult else none
  let tb : String × Bool :=
    if pyFalsyOpt t0 then (backup_translate backup src dest text, true)
    else (t0.getD "", false)
  if tb.1 = "" then none
  else some ⟨text, tb.1, src, dest, now, tb.2⟩

/-- Embedding of `save_to_history` of `streamlit_app_robust.py`: skip records already in
the history, append, keep the last 50 entries. -/
def save_to_history (history : List Result) (translation : Result) :
    List Result :=
  if translation ∈ history then history
  else
    let h := history ++ [translation]
    if 50 < h.length then h.drop (h.length - 50) else h

end Robust

namespace Working

/-- The partial-match loop of `translate_with_dict` in
`streamlit_app_working.py`: return on the first phrase occurring in
`text_lower`, replacing all its occurrences in `text_lower`. -/
def workingPartial : List (String × String) → String → Option String
  | [], _ => none
  | (phrase, translation) :: rest, tl =>
    if strContains tl phrase then some (pyReplace tl phrase translation)
    else workingPartial rest tl

/-- Embedding of `translate_with_dict` of `streamlit_app_working.py`:
exact match, else first partial match, else word-by-word lookup (no
punctuation stripping), else the `"[Translation needed: ...]"` marker. -/
def translate_with_dict (backup : List (String × List (String × String)))
    (text src dest : String) : String :=
  let translations := dictGetL backup (src ++ "-" ++ dest)
  let text_lower := pyStrip (pyLower text)
  match dictLookup translations text_lower with
  | some v => v
  | none =>
    match workingPartial translations text_lower with
    | some r => r
    | none =>
      let words := pySplitWS text_lower
      let translated_words := words.map fun word =>
        (dictLookup translations word).getD word
      let result := joinSpace translated_words
      if result = text_lower then "[Translation needed: " ++ text ++ "]"
      else result

/-- The try-except-pass wrapper around each backend call of
`streamlit_app_working.py`: a raised exception yields no result. -/
def caught : Except String (Option String) → Option String
  | .error _ => none
  | .ok r => r

/-- Python truthiness filter on an optional backend result string. -/
def pyTruthy : Option String → Option String
  | none => none
  | some r => if r = "" then none else some r

/-- Embedding of `FallbackTranslator.translate` of
`streamlit_app_working.py`: MyMemory, then LibreTranslate, then the
dictionary; a backend result is accepted whenever it is truthy (identical
text is NOT rejected here).  Typed in `Except` so that an uncaught
exception would surface as `.error`. -/
def translate (b1 b2 : Except String (Option String))
    (backup : List (String × List (String × String)))
    (text src dest : String) : Except String MockTranslation :=
  match pyTruthy (caught b1) with
  | some r => Except.ok ⟨r, src, dest⟩
  | none =>
    match pyTruthy (caught b2) with
    | some r => Except.ok ⟨r, src, dest⟩
    | none => Except.ok ⟨translate_with_dict backup text src dest, src, dest⟩

end Working

namespace Simple

/-- Embedding of `save_to_history` of `streamlit_app_simple.py`: skip a record whose
`original_text` and `translated_text` both match an existing entry, append,
keep the last 100 entries. -/
def save_to_history (history : List HistRec) (translation : HistRec) :
    List HistRec :=
  if history.any fun item =>
      item.original_text == translation.original_text &&
      item.translated_text == translation.translated_text then
    history
  else
    let h := history ++ [translation]
    if 100 < h.length then h.drop (h.length - 100) else h

end Simple

/-- A backend that is unavailable: the call yields no translation, either
returning the Python None or raising. -/
def unavailable (b : Except String (Option String)) : Prop :=
  b = Except.ok none ∨ ∃ e, b = Except.error e

/-- When no dictionary phrase occurs in `tl`, the partial-match loop of the
robust variant falls through to the sentinel marker. -/
theorem backupPartial_eq_sentinel (tr : List (String × String)) (text tl : String)
    (h : ∀ p ∈ tr, strContains tl p.1 = false) :
    Robust.backupPartial tr text tl = "[Translation needed: " ++ text ++ "]" := by
  induction tr with
  | nil => rfl
  | cons p rest ih =>
    obtain ⟨original, translated⟩ := p
    have h0 := h (original, translated) (List.mem_cons_self _ _)
    simp only at h0
    simp only [Robust.backupPartial, h0, Bool.false_eq_true, if_false]
    exact ih fun q hq => h q (List.mem_cons_of_mem _ hq)

/-- When no dictionary phrase occurs in `tl`, the partial-match scan of the
final variant leaves its accumulator untouched. -/
theorem partialScan_no_match (tr : List (String × String)) (best tl : String)
    (h : ∀ p ∈ tr, strContains tl p.1 = false) :
    Final.partialScan tr best tl = (best, tl) := by
  induction tr generalizing best with
  | nil => rfl
  | cons p rest ih =>
    obtain ⟨phrase, translation⟩ := p
    have h0 := h (phrase, translation) (List.mem_cons_self _ _)
    simp only at h0
    simp only [Final.partialScan, h0, Bool.false_and, Bool.false_eq_true, if_false]
    exact ih best fun q hq => h q (List.mem_cons_of_mem _ hq)

/-- An exact phrase hit makes `backup_translate` return the mapped value. -/
theorem backup_translate_exact (backup : List (String × List (String × String)))
    (src dest text v : String)
    (h : dictLookup (dictGetL backup (src ++ "-" ++ dest))
        (pyStrip (pyLower text)) = some v) :
    Robust.backup_translate backup src dest text = v := by
  simp only [Robust.backup_translate, h]

/-- The robust save keeps the history within the 50-entry cap. -/
theorem save_robust_length_le (history : List Robust.Result) (t : Robust.Result)
    (h : history.length ≤ 50) :
    (Robust.save_to_history history t).length ≤ 50 := by
  unfold Robust.save_to_history
  by_cases hm : t ∈ history
  · simpa [hm]
  · rw [if_neg hm]
    dsimp only
    split
    · simp only [List.length_drop, List.length_append]
      omega
    · next hc =>
      simp only [List.length_append] at hc ⊢
      omega

/-- The simple save keeps the history within the 100-entry cap. -/
theorem save_simple_length_le (history : List HistRec) (t : HistRec)
    (h : history.length ≤ 100) :
    (Simple.save_to_history history t).length ≤ 100 := by
  unfold Simple.save_to_history
  by_cases hm : (history.any fun item =>
      item.original_text == t.original_text &&
      item.translated_text == t.translated_text) = true
  · simpa [hm]
  · rw [if_neg hm]
    dsimp only
    split
    · simp only [List.length_drop, List.length_append]
      omega
    · next hc =>
      simp only [List.length_append] at hc ⊢
      omega

/-- A robust save preserves the no-duplicates invariant of the history. -/
theorem save_robust_nodup (history : List Robust.Result) (t : Robust.Result)
    (h : history.Nodup) : (Robust.save_to_history history t).Nodup := by
  unfold Robust.save_to_history
  by_cases hm : t ∈ history
  · simpa [hm]
  · have h2 : (history ++ [t]).Nodup := by
      rw [List.nodup_append]
      refine ⟨h, List.nodup_singleton t, ?_⟩
      intro a ha hat
      simp at hat
      exact hm (hat ▸ ha)
    rw [if_neg hm]
    dsimp only
    split
    · exact h2.sublist (List.drop_sublist _ _)
    · exact h2

/-- A final-variant save preserves the no-duplicates invariant. -/
theorem save_final_nodup (history : List HistRec) (t : HistRec)
    (h : history.Nodup) : (Final.save_to_history history t).Nodup := by
  unfold Final.save_to_history
  by_cases hm : t ∈ history
  · simpa [hm]
  · have h2 : (history ++ [t]).Nodup := by
      rw [List.nodup_append]
      refine ⟨h, List.nodup_singleton t, ?_⟩
      intro a ha hat
      simp at hat
      exact hm (hat ▸ ha)
    rw [if_neg hm]
    dsimp only
    split
    · exact h2.sublist (List.drop_sublist _ _)
    · exact h2

/-- Distinctness relation the simple variant guards on: two records that
differ in original or translated text. -/
def SimpleDistinct (a b : HistRec) : Prop :=
  ¬(a.original_text = b.original_text ∧ a.translated_text = b.translated_text)

/-- A simple-variant save preserves pairwise field-distinctness. -/
theorem save_simple_pairwise (history : List HistRec) (t : HistRec)
    (h : history.Pairwise SimpleDistinct) :
    (Simple.save_to_history history t).Pairwise SimpleDistinct := by
  unfold Simple.save_to_history
  by_cases hm : (history.any fun item =>
      item.original_text == t.original_text &&
      item.translated_text == t.translated_text) = true
  · simpa [hm]
  · have hall : ∀ i ∈ history, SimpleDistinct i t := by
      intro i hi hcon
      obtain ⟨h1, h2⟩ := hcon
      exact hm (List.any_eq_true.mpr ⟨i, hi, by simp [h1, h2]⟩)
    have h2 : (history ++ [t]).Pairwise SimpleDistinct := by
      rw [List.pairwise_append]
      refine ⟨h, List.pairwise_singleton _ _, ?_⟩
      intro a ha b hb
      simp at hb
      exact hb ▸ hall a ha
    rw [if_neg hm]
    dsimp only
    split
    · exact h2.sublist (List.drop_sublist _ _)
    · exact h2

/-- An unavailable backend never passes the acceptance test of the final
chain. -/
theorem accept_unavailable (text : String) (b : Except String (Option String))
    (h : unavailable b) : Final.accept text b = none := by
  rcases h with h | ⟨e, h⟩ <;> subst h <;> rfl

/-- C1 (counterexample).  The fallback substring step does NOT perform a
single replacement of the one longest matching phrase.  With the dictionary
of the claim, in the claimed order, input "morning morning" gets BOTH
occurrences of "morning" replaced ("morgen morgen", not "morgen morning");
and with the same two phrases in the opposite insertion order, input
"good morning friend" is rewritten using the shorter phrase "morning"
("good morgen friend"), not the longer "good morning". -/
theorem claim_C1_counterexample :
    Final.translate_with_dictionary
        [("en-de", [("good morning", "guten morgen"), ("morning", "morgen")])]
        "morning morning" "en" "de" = "morgen morgen" ∧
    ("morgen morgen" : String) ≠ "morgen morning" ∧
    Final.translate_with_dictionary
        [("en-de", [("morning", "morgen"), ("good morning", "guten morgen")])]
        "good morning friend" "en" "de" = "good morgen friend" ∧
    ("good morgen friend" : String) ≠ "guten morgen friend" := by
  refine ⟨by decide, by decide, by decide, by decide⟩

/-- C1 (amended).  The substring step of the final variant scans phrases in
dictionary insertion order and, whenever a phrase occurs in the
progressively rewritten lowercased input and is longer than every
previously matched phrase, replaces ALL of its occurrences; the robust
variant instead replaces all occurrences of the FIRST phrase in insertion
order that occurs.  With the phrases of the claim in the given order and
input "good morning", both variants yield "guten morgen" (there via the
exact-phrase branch), and on "good morning friend" the longer phrase wins
in both. -/
theorem claim_C1_amended :
    Final.translate_with_dictionary
        [("en-de", [("good morning", "guten morgen"), ("morning", "morgen")])]
        "good morning" "en" "de" = "guten morgen" ∧
    Final.translate_with_dictionary
        [("en-de", [("good morning", "guten morgen"), ("morning", "morgen")])]
        "good morning friend" "en" "de" = "guten morgen friend" ∧
    Robust.backup_translate
        [("en-de", [("good morning", "guten morgen"), ("morning", "morgen")])]
        "en" "de" "good morning friend" = "guten morgen friend" ∧
    Final.translate_with_dictionary Final.backup_translations
        "good morning" "en" "de" = "guten morgen" := by
  refine ⟨by decide, by decide, by decide, by decide⟩

/-- C2 (counterexample).  On the total-miss input of the claim, the final
variant returns the marker "[Need translation: xyz abc]", not the claimed
exact sentinel "[Translation needed: xyz abc]". -/
theorem claim_C2_counterexample :
    Final.translate_with_dictionary Final.backup_translations "xyz abc" "en" "de" =
      "[Need translation: xyz abc]" ∧
    ("[Need translation: xyz abc]" : String) ≠ "[Translation needed: xyz abc]" := by
  refine ⟨by decide, by decide⟩

/-- C2 (amended).  When no exact phrase matches and no dictionary phrase
occurs as a substring, the robust variant returns exactly
"[Translation needed: <text>]" (a non-empty string); the final variant
returns the differently worded marker "[Need translation: <text>]" on the
total-miss example, likewise non-empty. -/
theorem claim_C2_amended :
    (∀ (backup : List (String × List (String × String))) (src dest text : String),
        dictLookup (dictGetL backup (src ++ "-" ++ dest))
            (pyStrip (pyLower text)) = none →
        (∀ p ∈ dictGetL backup (src ++ "-" ++ dest),
            strContains (pyStrip (pyLower text)) p.1 = false) →
        Robust.backup_translate backup src dest text =
            "[Translation needed: " ++ text ++ "]" ∧
        Robust.backup_translate backup src dest text ≠ "") ∧
    Final.translate_with_dictionary Final.backup_translations "xyz abc" "en" "de" =
        "[Need translation: xyz abc]" ∧
    ("[Need translation: xyz abc]" : String) ≠ "" := by
  refine ⟨?_, by decide, by decide⟩
  intro backup src dest text h1 h2
  have hs : Robust.backup_translate backup src dest text =
      "[Translation needed: " ++ text ++ "]" := by
    simp only [Robust.backup_translate, h1]
    exact backupPartial_eq_sentinel _ text _ h2
  refine ⟨hs, ?_⟩
  rw [hs]
  intro hcon
  have hlen := congrArg String.length hcon
  have h21 : ("[Translation needed: " : String).length = 21 := rfl
  have h1r : ("]" : String).length = 1 := rfl
  have h0 : ("" : String).length = 0 := rfl
  simp only [String.length_append, h21, h1r, h0] at hlen
  omega

/-- C2 (witness for the amended theorem): the robust variant on the
dictionary-miss input "xyz abc" with its real en-de dictionary. -/
theorem claim_C2_witness :
    dictLookup (dictGetL Robust.backup_translations ("en" ++ "-" ++ "de"))
        (pyStrip (pyLower "xyz abc")) = none ∧
    Robust.backup_translate Robust.backup_translations "en" "de" "xyz abc" =
      "[Translation needed: xyz abc]" :=
  ⟨by decide,
    (claim_C2_amended.1 Robust.backup_translations "en" "de" "xyz abc"
      (by decide) (by decide)).1⟩

/-- C3 (confirmed).  With the translation service unavailable, a text whose
lowercased trimmed form is an exact phrase key of the dictionary for the
language pair produces a result whose translated text is exactly the mapped
value and whose fallback flag `is_backup` is set. -/
theorem claim_C3 (backup : List (String × List (String × String))) (now : Nat)
    (src dest text v : String)
    (h : dictLookup (dictGetL backup (src ++ "-" ++ dest))
        (pyStrip (pyLower text)) = some v)
    (hv : v ≠ "") :
    Robust.translate_text backup false none now src dest text =
      some ⟨text, v, src, dest, now, true⟩ := by
  have hb := backup_translate_exact backup src dest text v h
  simp [Robust.translate_text, pyFalsyOpt, hb, hv]

/-- C3 (witness): the robust real dictionary on a mixed-case, untrimmed
rendering of one of its phrase keys. -/
theorem claim_C3_witness :
    dictLookup (dictGetL Robust.backup_translations ("en" ++ "-" ++ "de"))
        (pyStrip (pyLower "  Good Morning ")) = some "guten morgen" ∧
    Robust.translate_text Robust.backup_translations false none 0 "en" "de"
        "  Good Morning " =
      some ⟨"  Good Morning ", "guten morgen", "en", "de", 0, true⟩ :=
  ⟨by decide,
    claim_C3 Robust.backup_translations 0 "en" "de" "  Good Morning "
      "guten morgen" (by decide) (by decide)⟩

/-- C4 (counterexample).  In the working variant the chain accepts any
truthy backend result, including one identical to the input: with the first
backend returning the input "hello" unchanged, the chain short-circuits
with "hello" instead of continuing (continuing would have produced the
dictionary translation "hallo"). -/
theorem claim_C4_counterexample :
    Working.translate (Except.ok (some "hello")) (Except.ok none)
        [("en-de", [("hello", "hallo")])] "hello" "en" "de" =
      Except.ok ⟨"hello", "en", "de"⟩ ∧
    Working.translate (Except.ok none) (Except.ok none)
        [("en-de", [("hello", "hallo")])] "hello" "en" "de" =
      Except.ok ⟨"hallo", "en", "de"⟩ := by
  refine ⟨by rfl, by rfl⟩

/-- C4 (amended).  In the FINAL variant the chain accepts a backend result
iff it is non-empty and not identical to the input (an identical result
behaves exactly like a failed backend and the chain continues); the WORKING
variant accepts any non-empty result, even one identical to the input. -/
theorem claim_C4_amended :
    (∀ (r : String) (b2 b3 : Except String (Option String))
        (backup : List (String × List (String × String))) (text src dest : String),
        ¬(text = "" ∨ pyStrip text = "") → r ≠ "" → r ≠ text →
        Final.translate true (Except.ok (some r)) b2 b3 backup text src dest =
          ⟨⟨r, src, dest⟩, false, 1⟩) ∧
    (∀ (r : String) (b2 b3 : Except String (Option String))
        (backup : List (String × List (String × String))) (text src dest : String),
        r = "" ∨ r = text →
        Final.translate true (Except.ok (some r)) b2 b3 backup text src dest =
          Final.translate true (Except.ok none) b2 b3 backup text src dest) ∧
    (∀ (r : String) (b2 : Except String (Option String))
        (backup : List (String × List (String × String))) (text src dest : String),
        r ≠ "" →
        Working.translate (Except.ok (some r)) b2 backup text src dest =
          Except.ok ⟨r, src, dest⟩) := by
  refine ⟨?_, ?_, ?_⟩
  · intro r b2 b3 backup text src dest ht hr hrt
    have ha : Final.accept text (Except.ok (some r)) = some r := by
      simp [Final.accept, hr, hrt]
    simp [Final.translate, ht, ha]
  · intro r b2 b3 backup text src dest hid
    have ha : Final.accept text (Except.ok (some r)) = none := by
      simp [Final.accept, hid]
    have hb : Final.accept text (Except.ok none) = none := rfl
    simp [Final.translate, ha, hb]
  · intro r b2 backup text src dest hr
    simp [Working.translate, Working.caught, Working.pyTruthy, hr]

/-- C4 (witness for the amended theorem): the final chain short-circuits on
an accepted first-backend result. -/
theorem claim_C4_witness :
    ¬(("hello" : String) = "" ∨ pyStrip "hello" = "") ∧
    Final.translate true (Except.ok (some "hallo")) (Except.ok none)
        (Except.ok none) Final.backup_translations "hello" "en" "de" =
      ⟨⟨"hallo", "en", "de"⟩, false, 1⟩ :=
  ⟨by decide,
    claim_C4_amended.1 "hallo" (Except.ok none) (Except.ok none)
      Final.backup_translations "hello" "en" "de" (by decide) (by decide)
      (by decide)⟩

/-- C5 (confirmed).  For every input text and every backend outcome,
including raising ones, the working-variant resolver returns an ordinary
`MockTranslation` value: no exception escapes the chain. -/
theorem claim_C5 (b1 b2 : Except String (Option String))
    (backup : List (String × List (String × String))) (text src dest : String) :
    ∃ m : MockTranslation,
      Working.translate b1 b2 backup text src dest = Except.ok m := by
  unfold Working.translate
  rcases hb1 : Working.pyTruthy (Working.caught b1) with _ | r
  · rcases hb2 : Working.pyTruthy (Working.caught b2) with _ | r2
    · exact ⟨_, rfl⟩
    · exact ⟨_, rfl⟩
  · exact ⟨_, rfl⟩

/-- C6 (confirmed).  On empty or whitespace-only input the final resolver
returns immediately: the translated text is empty, the fallback flag is
false and no backend is invoked (zero backends tried, result independent of
every backend outcome). -/
theorem claim_C6 (deepAvail : Bool) (b1 b2 b3 : Except String (Option String))
    (backup : List (String × List (String × String))) (text src dest : String)
    (h : pyStrip text = "") :
    Final.translate deepAvail b1 b2 b3 backup text src dest =
      ⟨⟨"", src, dest⟩, false, 0⟩ := by
  unfold Final.translate
  rw [if_pos (Or.inr h)]

/-- C6 (witness): whitespace-only input with arbitrary live backends. -/
theorem claim_C6_witness :
    pyStrip "   " = "" ∧
    Final.translate true (Except.ok (some "x")) (Except.ok (some "y"))
        (Except.ok (some "z")) Final.backup_translations "   " "en" "de" =
      ⟨⟨"", "en", "de"⟩, false, 0⟩ :=
  ⟨by decide,
    claim_C6 true (Except.ok (some "x")) (Except.ok (some "y"))
      (Except.ok (some "z")) Final.backup_translations "   " "en" "de"
      (by decide)⟩

/-- C7 (confirmed).  When no exact phrase matches and no dictionary phrase
occurs as a substring, the final word-by-word step splits the lowercased
input on whitespace, looks each token up after stripping surrounding
punctuation, keeps unmatched tokens unchanged and joins with single spaces
(returned whenever the join differs from the lowercased input, otherwise
step 3d yields the marker); on the example, input "hello world" with only
the phrase hello-to-hallo in the en-de dictionary yields "hallo world". -/
theorem claim_C7 :
    (∀ (backup : List (String × List (String × String))) (text src dest : String),
        dictLookup (dictGetL backup (src ++ "-" ++ dest))
            (pyStrip (pyLower text)) = none →
        (∀ p ∈ dictGetL backup (src ++ "-" ++ dest),
            strContains (pyStrip (pyLower text)) p.1 = false) →
        joinSpace ((pySplitWS (pyStrip (pyLower text))).map fun word =>
            match dictLookup (dictGetL backup (src ++ "-" ++ dest))
                (pyStripChars punctChars word) with
            | some t => t
            | none => word) ≠ pyStrip (pyLower text) →
        Final.translate_with_dictionary backup text src dest =
          joinSpace ((pySplitWS (pyStrip (pyLower text))).map fun word =>
            match dictLookup (dictGetL backup (src ++ "-" ++ dest))
                (pyStripChars punctChars word) with
            | some t => t
            | none => word)) ∧
    Final.translate_with_dictionary [("en-de", [("hello", "hallo")])]
        "hello world" "en" "de" = "hallo world" := by
  constructor
  · intro backup text src dest h1 h2 h3
    simp only [Final.translate_with_dictionary, h1]
    rw [partialScan_no_match _ _ _ h2]
    simp only [ne_eq, not_true_eq_false, if_false]
    rw [if_neg h3]
  · rfl

/-- C7 (witness): an unknown language pair resolves to the empty
dictionary; with doubled inner whitespace the join differs from the
lowercased input and is returned unchanged token by token. -/
theorem claim_C7_witness :
    dictLookup (dictGetL [("en-de", ([] : List (String × String)))]
        ("en" ++ "-" ++ "de")) (pyStrip (pyLower "xyz  abc")) = none ∧
    Final.translate_with_dictionary [("en-de", [])] "xyz  abc" "en" "de" =
      "xyz abc" :=
  ⟨by decide,
    claim_C7.1 [("en-de", [])] "xyz  abc" "en" "de" (by decide) (by decide)
      (by decide)⟩

/-- C8 (confirmed).  Starting from the empty history, any sequence of saves
keeps the robust history within its 50-entry cap and the simple history
within its 100-entry cap; a non-duplicate save appends and, past the cap,
drops oldest-first: the new history is a suffix of the appended list of
length `min (n + 1) 50`. -/
theorem claim_C8 :
    (∀ ts : List Robust.Result,
        (List.foldl Robust.save_to_history [] ts).length ≤ 50) ∧
    (∀ ts : List HistRec,
        (List.foldl Simple.save_to_history [] ts).length ≤ 100) ∧
    (∀ (history : List Robust.Result) (t : Robust.Result), t ∉ history →
        Robust.save_to_history history t <:+ history ++ [t] ∧
        (Robust.save_to_history history t).length = min (history.length + 1) 50) := by
  refine ⟨?_, ?_, ?_⟩
  · intro ts
    have key : ∀ (l : List Robust.Result) (h : List Robust.Result),
        h.length ≤ 50 → (List.foldl Robust.save_to_history h l).length ≤ 50 := by
      intro l
      induction l with
      | nil => intro h hh; simpa using hh
      | cons t rest ih => intro h hh; exact ih _ (save_robust_length_le h t hh)
    exact key ts [] (by simp)
  · intro ts
    have key : ∀ (l : List HistRec) (h : List HistRec),
        h.length ≤ 100 → (List.foldl Simple.save_to_history h l).length ≤ 100 := by
      intro l
      induction l with
      | nil => intro h hh; simpa using hh
      | cons t rest ih => intro h hh; exact ih _ (save_simple_length_le h t hh)
    exact key ts [] (by simp)
  · intro history t hm
    unfold Robust.save_to_history
    rw [if_neg hm]
    dsimp only
    constructor
    · split
      · exact List.drop_suffix _ _
      · exact List.suffix_refl _
    · split
      · next hc =>
        simp only [List.length_drop, List.length_append, List.length_singleton]
          at hc ⊢
        omega
      · next hc =>
        simp only [List.length_append, List.length_singleton] at hc ⊢
        omega

/-- C8 (witness): saving one record into the empty robust history. -/
theorem claim_C8_witness :
    (⟨"a", "b", "en", "de", 0, true⟩ : Robust.Result) ∉
        ([] : List Robust.Result) ∧
    (Robust.save_to_history [] ⟨"a", "b", "en", "de", 0, true⟩ <:+
        [] ++ [(⟨"a", "b", "en", "de", 0, true⟩ : Robust.Result)] ∧
      (Robust.save_to_history [] ⟨"a", "b", "en", "de", 0, true⟩).length =
        min (List.length ([] : List Robust.Result) + 1) 50) :=
  ⟨by decide, claim_C8.2.2 [] ⟨"a", "b", "en", "de", 0, true⟩ (by decide)⟩

/-- C9 (confirmed).  With every backend unavailable, the translated result
of the final resolver depends only on the text, the language pair and the
immutable dictionary: two calls under any two all-unavailable backend
environments produce identical results, so the fallback path is
deterministic and repeated calls are idempotent in their result. -/
theorem claim_C9 (a1 a2 : Bool) (b1 b2 b3 c1 c2 c3 : Except String (Option String))
    (backup : List (String × List (String × String))) (text src dest : String)
    (h1 : unavailable b1) (h2 : unavailable b2) (h3 : unavailable b3)
    (h4 : unavailable c1) (h5 : unavailable c2) (h6 : unavailable c3) :
    (Final.translate a1 b1 b2 b3 backup text src dest).result =
      (Final.translate a2 c1 c2 c3 backup text src dest).result := by
  have e1 : (if a1 then Final.accept text b1 else none) = none := by
    cases a1 <;> simp [accept_unavailable text b1 h1]
  have e2 := accept_unavailable text b2 h2
  have e3 := accept_unavailable text b3 h3
  have e4 : (if a2 then Final.accept text c1 else none) = none := by
    cases a2 <;> simp [accept_unavailable text c1 h4]
  have e5 := accept_unavailable text c2 h5
  have e6 := accept_unavailable text c3 h6
  unfold Final.translate
  by_cases ht : text = "" ∨ pyStrip text = ""
  · rw [if_pos ht, if_pos ht]
  · rw [if_neg ht, if_neg ht]
    simp only [e1, e2, e3, e4, e5, e6]

/-- C9 (witness): two different all-unavailable backend environments on a
concrete input agree. -/
theorem claim_C9_witness :
    unavailable (Except.ok none) ∧
    (Final.translate true (Except.ok none) (Except.ok none)
        (Except.error "down") Final.backup_translations "hello" "en" "de").result =
      (Final.translate false (Except.error "x") (Except.ok none)
        (Except.ok none) Final.backup_translations "hello" "en" "de").result :=
  ⟨Or.inl rfl,
    claim_C9 true false (Except.ok none) (Except.ok none) (Except.error "down")
      (Except.error "x") (Except.ok none) (Except.ok none)
      Final.backup_translations "hello" "en" "de"
      (Or.inl rfl) (Or.inl rfl) (Or.inr ⟨"down", rfl⟩)
      (Or.inr ⟨"x", rfl⟩) (Or.inl rfl) (Or.inl rfl)⟩

/-- C10 (confirmed).  In the robust, final and simple variants, saving a
record already present leaves the history unchanged, and starting from the
empty history the history never contains two equal records. -/
theorem claim_C10 :
    (∀ (history : List Robust.Result) (t : Robust.Result), t ∈ history →
        Robust.save_to_history history t = history) ∧
    (∀ (history : List HistRec) (t : HistRec), t ∈ history →
        Final.save_to_history history t = history) ∧
    (∀ (history : List HistRec) (t : HistRec), t ∈ history →
        Simple.save_to_history history t = history) ∧
    (∀ ts : List Robust.Result,
        (List.foldl Robust.save_to_history [] ts).Nodup) ∧
    (∀ ts : List HistRec, (List.foldl Final.save_to_history [] ts).Nodup) ∧
    (∀ ts : List HistRec, (List.foldl Simple.save_to_history [] ts).Nodup) := by
  refine ⟨?_, ?_, ?_, ?_, ?_, ?_⟩
  · intro history t hm
    unfold Robust.save_to_history
    rw [if_pos hm]
  · intro history t hm
    unfold Final.save_to_history
    rw [if_pos hm]
  · intro history t hm
    unfold Simple.save_to_history
    rw [if_pos (List.any_eq_true.mpr ⟨t, hm, by simp⟩)]
  · intro ts
    have key : ∀ (l : List Robust.Result) (h : List Robust.Result),
        h.Nodup → (List.foldl Robust.save_to_history h l).Nodup := by
      intro l
      induction l with
      | nil => intro h hh; simpa using hh
      | cons t rest ih => intro h hh; exact ih _ (save_robust_nodup h t hh)
    exact key ts [] (by simp)
  · intro ts
    have key : ∀ (l : List HistRec) (h : List HistRec),
        h.Nodup → (List.foldl Final.save_to_history h l).Nodup := by
      intro l
      induction l with
      | nil => intro h hh; simpa using hh
      | cons t rest ih => intro h hh; exact ih _ (save_final_nodup h t hh)
    exact key ts [] (by simp)
  · intro ts
    have key : ∀ (l : List HistRec) (h : List HistRec),
        List.Pairwise SimpleDistinct h →
          List.Pairwise SimpleDistinct (List.foldl Simple.save_to_history h l) := by
      intro l
      induction l with
      | nil => intro h hh; simpa using hh
      | cons t rest ih => intro h hh; exact ih _ (save_simple_pairwise h t hh)
    have hpw := key ts [] (by simp)
    exact hpw.imp fun hab => by
      intro heq
      subst heq
      exact hab ⟨rfl, rfl⟩

/-- C10 (witness): re-saving the single record of a one-record robust
history leaves it unchanged. -/
theorem claim_C10_witness :
    (⟨"a", "b", "en", "de", 0, true⟩ : Robust.Result) ∈
        [(⟨"a", "b", "en", "de", 0, true⟩ : Robust.Result)] ∧
    Robust.save_to_history [⟨"a", "b", "en", "de", 0, true⟩]
        ⟨"a", "b", "en", "de", 0, true⟩ =
      [(⟨"a", "b", "en", "de", 0, true⟩ : Robust.Result)] :=
  ⟨by decide,
    claim_C10.1 [⟨"a", "b", "en", "de", 0, true⟩] ⟨"a", "b", "en", "de", 0, true⟩
      (by decide)⟩

end DualHead
